import Mathlib

/-!
Verification of the chat-assistant-with-session-memory repository.

This file gives a shallow embedding, in Lean 4, of the parts of the code
that the specification's testable properties talk about:

* `src/utils/tokenizer.py` — ChatML token accounting (`count_messages_tokens`);
* `src/core/memory.py` — the consolidation trigger (`should_summarize`) and
  the message-range bookkeeping of `summarize_messages`;
* `src/core/llm.py` — system-prompt construction and outbound payload
  assembly of the Chat Generator;
* `src/core/pipeline.py` — the memory-context construction of
  `analyze_query`;
* `src/utils/storage.py` — the JSON persistence utility (`save_json`,
  `load_json`), modelled over an explicit filesystem state;
* `app/ui.py` — the sidebar usage-fraction computation;
* the data schemas of `src/schemas/memory.py` (this module is referenced
  throughout the code base; its record shapes are modelled from the spec's
  data-model section, matching every construction site in `app/cli.py` and
  `app/ui.py`).

Python dictionaries are embedded as ordered association lists (a Python
`dict` preserves insertion order and `items()` iterates in that order);
Python values that the code only inspects with `isinstance(value, str)` are
embedded as a two-constructor type (a string, or anything else); the
byte-pair tokenizer is an abstract function `String → Nat` giving the
encoded length of a string.
-/

/-- A Python value as far as `count_messages_tokens` can observe it:
either a string, or any non-string value (the code only ever tests
`isinstance(value, str)`). -/
inductive PyValue where
  | str (s : String)
  | other
deriving DecidableEq, Repr

/-- `isStr v` is the embedding of Python's `isinstance(v, str)`. -/
def PyValue.isStr : PyValue → Bool
  | .str _ => true
  | .other => false

/-- A chat message: a Python dict embedded as an ordered association list
of field names to values (`message.items()`). -/
abbrev ChatMessage := List (String × PyValue)

/-- Embedding of the body of the `for key, value in message.items()` loop of
`count_messages_tokens` (src/utils/tokenizer.py lines 66-73): the tokens one
`(key, value)` item adds to the running total.  Only the `content` and
`name` fields with string values are counted, and a string-valued `name`
adds one extra token (`tokens_per_name = 1`). -/
def itemTokens (enc : String → Nat) (key : String) (value : PyValue) : Nat :=
  match value with
  | .str s =>
      if key = "content" ∨ key = "name" then
        enc s + (if key = "name" then 1 else 0)
      else 0
  | .other => 0

/-- Tokens contributed by a single message in `count_messages_tokens`:
the fixed `tokens_per_message = 3` overhead plus the item loop. -/
def messageTokens (enc : String → Nat) (message : ChatMessage) : Nat :=
  3 + message.foldl (fun n kv => n + itemTokens enc kv.1 kv.2) 0

/-- Embedding of `count_messages_tokens` (src/utils/tokenizer.py lines
42-81): sum the per-message totals, then add the final 3 tokens priming the
assistant reply.  `enc` abstracts `encoding.encode`'s length for the
resolved model encoding. -/
def count_messages_tokens (enc : String → Nat) (messages : List ChatMessage) : Nat :=
  messages.foldl (fun n m => n + messageTokens enc m) 0 + 3

/-- Embedding of `MemoryManager.should_summarize` (src/core/memory.py lines
32-39): true iff the buffer's token count strictly exceeds the configured
threshold (a Python int). -/
def should_summarize (enc : String → Nat) (threshold : Int)
    (messages : List ChatMessage) : Bool :=
  decide ((count_messages_tokens enc messages : Int) > threshold)

/-- The per-item token contribution as the spec's accounting formula words
it: the encoded length of the `content` field and of the `name` field when
each is present as a non-empty string, plus one extra token for a `name`
field; fields other than `content`/`name` contribute nothing. -/
def specItemTokens (enc : String → Nat) (key : String) (value : PyValue) : Nat :=
  if key = "content" then
    match value with
    | .str s => if s = "" then 0 else enc s
    | .other => 0
  else if key = "name" then
    (match value with
     | .str s => if s = "" then 0 else enc s
     | .other => 0) + 1
  else 0

/-- The spec's closed-form total: `3*len(M) + sum(per-message fields) + 3`. -/
def specMessagesTokens (enc : String → Nat) (messages : List ChatMessage) : Nat :=
  3 * messages.length
    + (messages.map
        (fun m => (m.map (fun kv => specItemTokens enc kv.1 kv.2)).sum)).sum
    + 3

/-- A left fold that keeps adding `f` of each element equals the starting
value plus the sum of the mapped list. -/
theorem foldl_add_map_sum {α : Type} (f : α → Nat) :
    ∀ (l : List α) (a : Nat),
      l.foldl (fun n x => n + f x) a = a + (l.map f).sum := by
  intro l
  induction l with
  | nil => intro a; simp
  | cons x xs ih =>
      intro a
      simp only [List.foldl_cons, List.map_cons, List.sum_cons]
      rw [ih]
      omega

theorem messageTokens_eq_sum (enc : String → Nat) (m : ChatMessage) :
    messageTokens enc m = 3 + (m.map (fun kv => itemTokens enc kv.1 kv.2)).sum := by
  unfold messageTokens
  rw [foldl_add_map_sum]
  omega

theorem count_messages_tokens_eq_sum (enc : String → Nat)
    (messages : List ChatMessage) :
    count_messages_tokens enc messages
      = (messages.map (messageTokens enc)).sum + 3 := by
  unfold count_messages_tokens
  rw [foldl_add_map_sum]
  omega

theorem sum_map_add_const {α : Type} (c : Nat) (h : α → Nat) :
    ∀ l : List α, (l.map (fun x => c + h x)).sum = c * l.length + (l.map h).sum := by
  intro l
  induction l with
  | nil => simp
  | cons x xs ih =>
      simp only [List.map_cons, List.sum_cons, List.length_cons]
      rw [ih]
      ring

/-- On items whose `content`/`name` values are strings, the code's per-item
accounting and the spec's per-item formula agree (the empty string encodes
to zero tokens). -/
theorem itemTokens_eq_specItemTokens (enc : String → Nat)
    (henc : enc "" = 0) (key : String) (value : PyValue)
    (hstr : (key = "content" ∨ key = "name") → value.isStr = true) :
    itemTokens enc key value = specItemTokens enc key value := by
  cases value with
  | str s =>
      unfold itemTokens specItemTokens
      by_cases hc : key = "content"
      · have hn : ¬ key = "name" := by
          intro h
          rw [hc] at h
          exact absurd h (by decide)
        simp only [hc, if_pos (Or.inl rfl)]
        by_cases hs : s = ""
        · subst hs
          simp [henc, if_neg hn]
        · simp [hs, if_neg hn]
      · by_cases hn : key = "name"
        · simp only [if_neg hc, hn, if_pos (Or.inr rfl)]
          by_cases hs : s = ""
          · subst hs
            simp [henc]
          · simp [hs]
        · have : ¬ (key = "content" ∨ key = "name") := by
            intro h
            cases h with
            | inl h => exact hc h
            | inr h => exact hn h
          simp [if_neg this, if_neg hc, if_neg hn]
  | other =>
      unfold itemTokens specItemTokens
      by_cases hc : key = "content"
      · exact absurd (hstr (Or.inl hc)) (by simp [PyValue.isStr])
      · by_cases hn : key = "name"
        · exact absurd (hstr (Or.inr hn)) (by simp [PyValue.isStr])
        · simp [if_neg hc, if_neg hn]

/-- Claim C1: for every message list and model encoding, the code's total
`count_messages_tokens` equals the spec's closed formula: 3 per message,
the encoded length of string-valued `content`/`name` fields (non-empty),
one extra token per `name` field, a final 3 tokens, and nothing for any
other field.  Messages are assumed well-typed as in the data model: their
`content` and `name` fields, when present, hold strings. -/
theorem count_messages_tokens_matches_spec_formula (enc : String → Nat)
    (messages : List ChatMessage)
    (henc : enc "" = 0)
    (hstr : ∀ m ∈ messages, ∀ kv ∈ m,
      (kv.1 = "content" ∨ kv.1 = "name") → kv.2.isStr = true) :
    count_messages_tokens enc messages = specMessagesTokens enc messages := by
  rw [count_messages_tokens_eq_sum]
  unfold specMessagesTokens
  have hmap : messages.map (messageTokens enc)
      = messages.map
          (fun m => 3 + (m.map (fun kv => specItemTokens enc kv.1 kv.2)).sum) := by
    apply List.map_congr_left
    intro m hm
    rw [messageTokens_eq_sum]
    congr 1
    apply congrArg
    apply List.map_congr_left
    intro kv hkv
    exact itemTokens_eq_specItemTokens enc henc kv.1 kv.2 (hstr m hm kv hkv)
  rw [hmap, sum_map_add_const]

/-- A concrete encoded-length function used by the closed witnesses below
(any function with `enc "" = 0` satisfies the tokenizer abstraction). -/
def encLen : String → Nat := String.length

/-- Witness for C1 at a concrete two-message list containing a `name`
field, an empty `content` and a non-counted `debug_info` field. -/
theorem count_messages_tokens_matches_spec_formula_witness :
    count_messages_tokens encLen
        [[("role", PyValue.str "user"), ("content", PyValue.str "hi"),
          ("name", PyValue.str "bob")],
         [("content", PyValue.str ""), ("debug_info", PyValue.other)]]
      = specMessagesTokens encLen
        [[("role", PyValue.str "user"), ("content", PyValue.str "hi"),
          ("name", PyValue.str "bob")],
         [("content", PyValue.str ""), ("debug_info", PyValue.other)]] :=
  count_messages_tokens_matches_spec_formula encLen _ (by decide) (by decide)

/-- Claim C2: `should_summarize` is true iff the token count strictly
exceeds the threshold, and is false when the count equals the threshold. -/
theorem should_summarize_strict_threshold (enc : String → Nat) (threshold : Int)
    (messages : List ChatMessage) :
    (should_summarize enc threshold messages = true
        ↔ (count_messages_tokens enc messages : Int) > threshold)
      ∧ ((count_messages_tokens enc messages : Int) = threshold
            → should_summarize enc threshold messages = false) := by
  constructor
  · simp [should_summarize]
  · intro h
    simp [should_summarize, h]

/-- Witness for C2: a buffer totalling exactly the threshold (8 tokens
under `encLen`) does not trigger summarization. -/
theorem should_summarize_strict_threshold_witness :
    should_summarize encLen 8 [[("content", PyValue.str "hi")]] = false :=
  (should_summarize_strict_threshold encLen 8
      [[("content", PyValue.str "hi")]]).2 (by decide)

/-- Claim C10: non-string values of `content` or `name` are silently
skipped by `count_messages_tokens`: any non-string item contributes zero
tokens, and a message whose `content`/`name` values are all non-string
contributes exactly the 3-token per-message overhead, in any message list. -/
theorem nonstring_fields_contribute_nothing (enc : String → Nat)
    (m : ChatMessage)
    (h : ∀ kv ∈ m, (kv.1 = "content" ∨ kv.1 = "name") → kv.2.isStr = false) :
    (∀ key : String, itemTokens enc key PyValue.other = 0)
      ∧ messageTokens enc m = 3
      ∧ ∀ ms1 ms2 : List ChatMessage,
          count_messages_tokens enc (ms1 ++ m :: ms2)
            = count_messages_tokens enc (ms1 ++ ms2) + 3 := by
  have hzero : ∀ kv ∈ m, itemTokens enc kv.1 kv.2 = 0 := by
    intro kv hkv
    cases hv : kv.2 with
    | str s =>
        unfold itemTokens
        by_cases hk : kv.1 = "content" ∨ kv.1 = "name"
        · have := h kv hkv hk
          rw [hv] at this
          exact absurd this (by simp [PyValue.isStr])
        · simp [if_neg hk]
    | other => rfl
  have hmsg : messageTokens enc m = 3 := by
    rw [messageTokens_eq_sum]
    have : (m.map (fun kv => itemTokens enc kv.1 kv.2)).sum = 0 := by
      apply List.sum_eq_zero
      intro x hx
      rcases List.mem_map.mp hx with ⟨kv, hkv, hEq⟩
      rw [← hEq]
      exact hzero kv hkv
    omega
  refine ⟨fun key => rfl, hmsg, ?_⟩
  intro ms1 ms2
  rw [count_messages_tokens_eq_sum, count_messages_tokens_eq_sum]
  simp only [List.map_append, List.map_cons, List.sum_append, List.sum_cons]
  rw [hmsg]
  omega

/-- Witness for C10: a message with non-string `content` and `name` and a
string `role` contributes exactly 3 tokens. -/
theorem nonstring_fields_contribute_nothing_witness :
    messageTokens encLen
        [("role", PyValue.str "user"), ("content", PyValue.other),
         ("name", PyValue.other)]
      = 3 :=
  (nonstring_fields_contribute_nothing encLen
      [("role", PyValue.str "user"), ("content", PyValue.other),
       ("name", PyValue.other)]
      (by decide)).2.1

/-- Modelled from the spec: the `MessageRange` record of the missing
`src/schemas/memory.py` — inclusive `start_index`, exclusive `end_index`
(Python integers), matching the construction sites in `app/cli.py` and
`app/ui.py`. -/
structure MessageRange where
  start_index : Int
  end_index : Int
deriving DecidableEq, Repr

/-- Modelled from the spec: the `UserProfile` record of the missing
`src/schemas/memory.py` — ordered preference and hard-constraint lists. -/
structure UserProfile where
  prefs : List String
  constraints : List String
deriving DecidableEq, Repr

/-- Modelled from the spec: the `SessionSummaryContent` record of the
missing `src/schemas/memory.py` — the LLM-authored portion of long-term
memory. -/
structure SessionSummaryContent where
  user_profile : UserProfile
  key_facts : List String
  decisions : List String
  open_questions : List String
  todos : List String
deriving DecidableEq, Repr

/-- Modelled from the spec: the `SessionSummary` record of the missing
`src/schemas/memory.py` — `SessionSummaryContent` plus the
application-computed `message_range_summarized`. -/
structure SessionSummary where
  user_profile : UserProfile
  key_facts : List String
  decisions : List String
  open_questions : List String
  todos : List String
  message_range_summarized : MessageRange
deriving DecidableEq, Repr

/-- Embedding of `MemoryManager.summarize_messages` (src/core/memory.py
lines 41-90).  The LLM call of steps 1-3 is abstracted by its structured
result `ai_content` (the `SessionSummaryContent` the model parsed); the
function's own deterministic work is the metadata computation of steps 4-5:
`start_index` is the previous summary's `end_index` (or 0), `end_index` is
`start_index + len(messages)`, and the result merges the AI content with
the computed range. -/
def summarize_messages (ai_content : SessionSummaryContent)
    (messages : List ChatMessage)
    (previous_summary : Option SessionSummary) : SessionSummary :=
  let start_index : Int :=
    match previous_summary with
    | some p => p.message_range_summarized.end_index
    | none => 0
  let end_index : Int := start_index + messages.length
  { user_profile := ai_content.user_profile
    key_facts := ai_content.key_facts
    decisions := ai_content.decisions
    open_questions := ai_content.open_questions
    todos := ai_content.todos
    message_range_summarized := { start_index := start_index, end_index := end_index } }

/-- The `start_index` a consolidation uses, as a function of the previous
summary: the previous `end_index`, or 0 when there is none. -/
def prevEnd : Option SessionSummary → Int
  | none => 0
  | some p => p.message_range_summarized.end_index

/-- A sequence of consolidations, each fed the messages accumulated since
the previous one (exactly how `app/ui.py` and the `run-log` subcommand
drive `summarize_messages`): every step's result becomes the next step's
`previous_summary`. -/
def consolidateChain :
    Option SessionSummary → List (SessionSummaryContent × List ChatMessage)
      → List SessionSummary
  | _, [] => []
  | prev, (ai, msgs) :: rest =>
      let s := summarize_messages ai msgs prev
      s :: consolidateChain (some s) rest

/-- Two consecutive summaries produced by the chain are contiguous:
the earlier one's `end_index` is the later one's `start_index`. -/
def RangesContiguous (a b : SessionSummary) : Prop :=
  a.message_range_summarized.end_index = b.message_range_summarized.start_index

theorem consolidateChain_head_start (prev : Option SessionSummary)
    (steps : List (SessionSummaryContent × List ChatMessage))
    (s : SessionSummary)
    (h : (consolidateChain prev steps).head? = some s) :
    s.message_range_summarized.start_index = prevEnd prev := by
  cases steps with
  | nil => simp [consolidateChain] at h
  | cons step rest =>
      obtain ⟨ai, msgs⟩ := step
      simp only [consolidateChain, List.head?_cons, Option.some.injEq] at h
      rw [← h]
      cases prev <;> rfl

theorem consolidateChain_chain (steps : List (SessionSummaryContent × List ChatMessage)) :
    ∀ prev : Option SessionSummary,
      List.Chain' RangesContiguous (consolidateChain prev steps) := by
  induction steps with
  | nil => intro prev; simp [consolidateChain]
  | cons step rest ih =>
      intro prev
      obtain ⟨ai, msgs⟩ := step
      simp only [consolidateChain]
      apply List.Chain'.cons'
      · exact ih _
      · intro y hy
        have hstart := consolidateChain_head_start _ _ _ hy
        unfold RangesContiguous
        rw [hstart]
        rfl

/-- Claim C3: `summarize_messages` computes `start_index` as the previous
summary's `end_index` (0 with no previous summary) and `end_index` as
`start_index + len(messages)`; consequently any sequence of consolidations,
each fed the messages accumulated since the previous one, yields contiguous
non-overlapping gap-free ranges starting at 0. -/
theorem summarize_messages_range_chaining :
    (∀ (ai : SessionSummaryContent) (msgs : List ChatMessage),
        (summarize_messages ai msgs none).message_range_summarized.start_index = 0)
      ∧ (∀ (ai : SessionSummaryContent) (msgs : List ChatMessage)
            (p : SessionSummary),
          (summarize_messages ai msgs (some p)).message_range_summarized.start_index
            = p.message_range_summarized.end_index)
      ∧ (∀ (ai : SessionSummaryContent) (msgs : List ChatMessage)
            (prev : Option SessionSummary),
          (summarize_messages ai msgs prev).message_range_summarized.end_index
            = (summarize_messages ai msgs prev).message_range_summarized.start_index
                + msgs.length)
      ∧ (∀ steps : List (SessionSummaryContent × List ChatMessage),
          List.Chain' RangesContiguous (consolidateChain none steps)
            ∧ ∀ s : SessionSummary, (consolidateChain none steps).head? = some s
                → s.message_range_summarized.start_index = 0) := by
  refine ⟨fun ai msgs => rfl, fun ai msgs p => rfl, ?_, ?_⟩
  · intro ai msgs prev
    cases prev <;> rfl
  · intro steps
    exact ⟨consolidateChain_chain steps none,
           fun s h => consolidateChain_head_start none steps s h⟩

/-- Witness for C3: the head of a concrete two-step consolidation chain
(5 messages, then 3 more) starts at index 0. -/
theorem summarize_messages_range_chaining_witness :
    (summarize_messages ⟨⟨[], []⟩, [], [], [], []⟩
        (List.replicate 5 [("role", PyValue.str "user")])
        none).message_range_summarized.start_index = 0 :=
  (summarize_messages_range_chaining.2.2.2
      [(⟨⟨[], []⟩, [], [], [], []⟩, List.replicate 5 [("role", PyValue.str "user")]),
       (⟨⟨[], []⟩, [], [], [], []⟩, List.replicate 3 [("role", PyValue.str "user")])]).2
    (summarize_messages ⟨⟨[], []⟩, [], [], [], []⟩
        (List.replicate 5 [("role", PyValue.str "user")]) none)
    rfl

/-- The fixed base instruction of `ChatGenerator._build_system_prompt`
(src/core/llm.py lines 27-30). -/
def base_prompt : String :=
  "You are a helpful and intelligent AI Assistant.\nAnswer the user's questions clearly and accurately.\n"

/-- The `profile_text` accumulation of `_build_system_prompt`
(src/core/llm.py lines 41-51): the block header, then a constraints
section when the constraint list is non-empty (Python list truthiness),
then a preferences section when the preference list is non-empty. -/
def profile_text (p : UserProfile) : String :=
  let t := "\n=== USER PROFILE (Remember this) ===\n"
  let t :=
    if p.constraints.isEmpty then t
    else t ++ "CONSTRAINTS (Must Follow):\n"
           ++ String.join (p.constraints.map (fun c => "- " ++ c ++ "\n"))
  if p.prefs.isEmpty then t
  else t ++ "PREFERENCES:\n"
         ++ String.join (p.prefs.map (fun pr => "- " ++ pr ++ "\n"))

/-- Embedding of `ChatGenerator._build_system_prompt` (src/core/llm.py
lines 20-63).  Note: the source guards the profile block with
`if session_memory.user_profile:`, but `user_profile` is a pydantic model
instance and a Python object without custom truthiness is always truthy,
so the guard never fails and the profile block (at least its header) is
appended whenever memory is present. -/
def build_system_prompt : Option SessionSummary → String
  | none => base_prompt
  | some sm =>
      let context_blocks : List String := [profile_text sm.user_profile]
      let context_blocks :=
        if sm.key_facts.isEmpty then context_blocks
        else context_blocks
              ++ ["\n=== KEY FACTS ===\n"
                    ++ String.intercalate "\n" (sm.key_facts.map (fun f => "- " ++ f))]
      base_prompt ++ String.intercalate "\n" context_blocks

/-- A SessionSummary whose profile lists and key facts are all empty
(the failing input of claim C4). -/
def empty_memory_summary : SessionSummary :=
  ⟨⟨[], []⟩, [], [], [], [], ⟨0, 0⟩⟩

/-- A SessionSummary whose profile has only constraints populated. -/
def constraints_only_summary : SessionSummary :=
  ⟨⟨[], ["Hates Java"]⟩, [], [], [], [], ⟨0, 0⟩⟩

/-- Claim C4 (divergence): with an all-empty memory the constructed system
prompt is NOT the base prompt — the always-truthy pydantic-model guard
appends the USER PROFILE header block anyway; the constraints-only half of
the claim does hold (a constraints section and no PREFERENCES section). -/
theorem build_system_prompt_empty_memory_divergence :
    build_system_prompt (some empty_memory_summary)
        = base_prompt ++ "\n=== USER PROFILE (Remember this) ===\n"
      ∧ build_system_prompt (some empty_memory_summary) ≠ base_prompt
      ∧ build_system_prompt (some constraints_only_summary)
          = base_prompt
              ++ "\n=== USER PROFILE (Remember this) ===\nCONSTRAINTS (Must Follow):\n- Hates Java\n" :=
  ⟨rfl, by decide, rfl⟩

/-- Embedding of the dict comprehension of `ChatGenerator.generate_response`
(src/core/llm.py line 86): keep only the `role`, `content` and `name`
items of a message. -/
def clean_message (msg : ChatMessage) : ChatMessage :=
  msg.filter (fun kv => kv.1 == "role" || kv.1 == "content" || kv.1 == "name")

/-- Embedding of the messages payload assembled by
`ChatGenerator.generate_response` (src/core/llm.py lines 82-90): the system
message with the constructed prompt, the cleaned context messages, then the
final user message carrying the query. -/
def generate_response_payload (user_query : String)
    (context_messages : List ChatMessage)
    (session_memory : Option SessionSummary) : List ChatMessage :=
  [("role", PyValue.str "system"),
   ("content", PyValue.str (build_system_prompt session_memory))]
    :: (context_messages.map clean_message
        ++ [[("role", PyValue.str "user"), ("content", PyValue.str user_query)]])

/-- Claim C5: every context message reaches the outbound payload in cleaned
form, the cleaned form carries only `role`/`content`/`name` items, and an
item survives cleaning exactly when it was in the original message with one
of those three keys (so any diagnostic/debug field is absent). -/
theorem generate_response_payload_strips_extra_fields
    (user_query : String) (context_messages : List ChatMessage)
    (session_memory : Option SessionSummary)
    (msg : ChatMessage) (hmsg : msg ∈ context_messages) :
    clean_message msg
        ∈ generate_response_payload user_query context_messages session_memory
      ∧ (∀ kv ∈ clean_message msg,
          kv.1 = "role" ∨ kv.1 = "content" ∨ kv.1 = "name")
      ∧ (∀ kv : String × PyValue,
          kv ∈ clean_message msg
            ↔ kv ∈ msg ∧ (kv.1 = "role" ∨ kv.1 = "content" ∨ kv.1 = "name")) := by
  refine ⟨?_, ?_, ?_⟩
  · unfold generate_response_payload
    apply List.mem_cons_of_mem
    apply List.mem_append_left
    exact List.mem_map_of_mem clean_message hmsg
  · intro kv hkv
    have := (List.mem_filter.mp hkv).2
    simpa [or_assoc] using this
  · intro kv
    constructor
    · intro hkv
      rcases List.mem_filter.mp hkv with ⟨hmem, hpred⟩
      refine ⟨hmem, ?_⟩
      simpa [or_assoc] using hpred
    · intro h
      apply List.mem_filter.mpr
      refine ⟨h.1, ?_⟩
      simpa [or_assoc] using h.2

/-- Witness for C5: a message with a `debug_info` field appears in the
payload with that field stripped. -/
theorem generate_response_payload_strips_extra_fields_witness :
    clean_message
        [("role", PyValue.str "user"), ("content", PyValue.str "hi"),
         ("debug_info", PyValue.other)]
      ∈ generate_response_payload "query"
          [[("role", PyValue.str "user"), ("content", PyValue.str "hi"),
            ("debug_info", PyValue.other)]]
          none :=
  (generate_response_payload_strips_extra_fields "query"
      [[("role", PyValue.str "user"), ("content", PyValue.str "hi"),
        ("debug_info", PyValue.other)]]
      none
      [("role", PyValue.str "user"), ("content", PyValue.str "hi"),
       ("debug_info", PyValue.other)]
      (List.mem_singleton.mpr rfl)).1

/-- A JSON value, as handled by `json.dump`/`json.load` and by pydantic's
`model_dump`/validation. -/
inductive Json where
  | null
  | str (s : String)
  | int (n : Int)
  | arr (elems : List Json)
  | obj (fields : List (String × Json))

/-- Python `dict` lookup `d[key]` / `d.get(key)` over the ordered field
list of a JSON object. -/
def dictGet (d : List (String × Json)) (key : String) : Option Json :=
  (d.find? (fun kv => kv.1 == key)).map Prod.snd

/-- pydantic `UserProfile.model_dump()` as a JSON value. -/
def UserProfile.model_dump (p : UserProfile) : Json :=
  Json.obj [("prefs", Json.arr (p.prefs.map Json.str)),
            ("constraints", Json.arr (p.constraints.map Json.str))]

/-- pydantic `MessageRange.model_dump()` as a JSON value. -/
def MessageRange.model_dump (r : MessageRange) : Json :=
  Json.obj [("start_index", Json.int r.start_index),
            ("end_index", Json.int r.end_index)]

/-- The ordered fields of pydantic `SessionSummary.model_dump()`: exactly
the six declared fields of the record, in declaration order. -/
def SessionSummary.model_dump_fields (s : SessionSummary) : List (String × Json) :=
  [("user_profile", s.user_profile.model_dump),
   ("key_facts", Json.arr (s.key_facts.map Json.str)),
   ("decisions", Json.arr (s.decisions.map Json.str)),
   ("open_questions", Json.arr (s.open_questions.map Json.str)),
   ("todos", Json.arr (s.todos.map Json.str)),
   ("message_range_summarized", s.message_range_summarized.model_dump)]

/-- pydantic `SessionSummary.model_dump()` as a JSON value. -/
def SessionSummary.model_dump (s : SessionSummary) : Json :=
  Json.obj s.model_dump_fields

/-- Python's negative-start slice `l[-n:]`: the last `n` elements. -/
def pyLastSlice (n : Nat) (l : List Json) : List Json :=
  l.drop (l.length - n)

/-- Embedding of the `relevant_memory` dict built by
`QueryPipeline.analyze_query` (src/core/pipeline.py lines 42-51):
`user_profile` is looked up from the dumped memory, and
`recent_session_summaries` is `memory_dict.get("session_summaries", [])[-10:]`
(the default empty list when the key is absent). -/
def analyze_query_relevant_memory (session_memory : SessionSummary) :
    List (String × Json) :=
  let memory_dict := session_memory.model_dump_fields
  let session_summaries : List Json :=
    match dictGet memory_dict "session_summaries" with
    | some (Json.arr es) => es
    | some _ => []
    | none => []
  [("user_profile", (dictGet memory_dict "user_profile").getD Json.null),
   ("recent_session_summaries", Json.arr (pyLastSlice 10 session_summaries))]

/-- Claim C9: `SessionSummary.model_dump()` carries no `session_summaries`
key, so the `recent_session_summaries` entry of the pipeline's memory
context is the empty collection for every session memory — the lookup is
inert. -/
theorem analyze_query_session_summaries_inert (s : SessionSummary) :
    dictGet s.model_dump_fields "session_summaries" = none
      ∧ dictGet (analyze_query_relevant_memory s) "recent_session_summaries"
          = some (Json.arr []) :=
  ⟨rfl, rfl⟩

/-- The state of one path of the filesystem, as far as `load_json`
distinguishes outcomes: absent; present with JSON content; present but
`json.load` raises `JSONDecodeError`; present but reading raises some
other I/O error. -/
inductive FileState where
  | missing
  | jsonFile (v : Json)
  | malformed
  | unreadable

/-- The filesystem: a state for every path. -/
def Store : Type := String → FileState

/-- Embedding of `save_json` (src/utils/storage.py lines 9-39) on a
writable path: the target path now holds the serialized data (written with
`ensure_ascii=False`, see `jsonEncodeChar` below); other paths are
untouched. -/
def save_json (data : Json) (file_path : String) (fs : Store) : Store :=
  fun p => if p = file_path then FileState.jsonFile data else fs p

/-- What a call to `load_json` does: return a value (Python `None` is
`none`) or re-raise an I/O error. -/
inductive LoadResult where
  | value (v : Option Json)
  | ioError

/-- Embedding of `load_json` (src/utils/storage.py lines 42-75): a missing
path returns `None`; malformed JSON is caught (`json.JSONDecodeError`) and
returns `None`; any other read error is re-raised; otherwise the parsed
content is returned. -/
def load_json (fs : Store) (file_path : String) : LoadResult :=
  match fs file_path with
  | FileState.missing => LoadResult.value none
  | FileState.jsonFile v => LoadResult.value (some v)
  | FileState.malformed => LoadResult.value none
  | FileState.unreadable => LoadResult.ioError

/-- Claim C6: `load_json` returns the no-value result (never an error) on a
missing path and on malformed JSON, re-raises any other read error, and
returns the parsed content otherwise. -/
theorem load_json_missing_or_corrupt_returns_none (fs : Store) (path : String) :
    (fs path = FileState.missing → load_json fs path = LoadResult.value none)
      ∧ (fs path = FileState.malformed → load_json fs path = LoadResult.value none)
      ∧ (fs path = FileState.unreadable → load_json fs path = LoadResult.ioError)
      ∧ (∀ v : Json, fs path = FileState.jsonFile v
            → load_json fs path = LoadResult.value (some v)) := by
  refine ⟨?_, ?_, ?_, ?_⟩
  · intro h
    unfold load_json
    rw [h]
  · intro h
    unfold load_json
    rw [h]
  · intro h
    unfold load_json
    rw [h]
  · intro v h
    unfold load_json
    rw [h]

/-- Witness for C6: loading from an entirely missing filesystem returns the
no-value result. -/
theorem load_json_missing_or_corrupt_returns_none_witness :
    load_json (fun _ => FileState.missing) "data/session_memory.json"
      = LoadResult.value none :=
  (load_json_missing_or_corrupt_returns_none (fun _ => FileState.missing)
      "data/session_memory.json").1 rfl

/-- Parse a list of JSON values as a list of strings (pydantic validation
of a `List[str]` field); fails on any non-string element. -/
def parseStrings : List Json → Option (List String)
  | [] => some []
  | Json.str s :: rest => (parseStrings rest).map (fun l => s :: l)
  | _ => none

/-- Parse a JSON value as a `List[str]` field. -/
def parseStringList : Json → Option (List String)
  | Json.arr es => parseStrings es
  | _ => none

/-- pydantic validation of a `UserProfile` from dumped JSON. -/
def UserProfile.validate : Json → Option UserProfile
  | Json.obj fields =>
      match dictGet fields "prefs", dictGet fields "constraints" with
      | some pj, some cj =>
          match parseStringList pj, parseStringList cj with
          | some ps, some cs => some ⟨ps, cs⟩
          | _, _ => none
      | _, _ => none
  | _ => none

/-- pydantic validation of a `MessageRange` from dumped JSON. -/
def MessageRange.validate : Json → Option MessageRange
  | Json.obj fields =>
      match dictGet fields "start_index", dictGet fields "end_index" with
      | some (Json.int a), some (Json.int b) => some ⟨a, b⟩
      | _, _ => none
  | _ => none

/-- pydantic validation of a `SessionSummary` from dumped JSON — what
`SessionSummary(**data)` does in `app/ui.py` after `load_json`. -/
def SessionSummary.validate : Json → Option SessionSummary
  | Json.obj fields => do
      let upj ← dictGet fields "user_profile"
      let up ← UserProfile.validate upj
      let kfj ← dictGet fields "key_facts"
      let kf ← parseStringList kfj
      let dj ← dictGet fields "decisions"
      let d ← parseStringList dj
      let oqj ← dictGet fields "open_questions"
      let oq ← parseStringList oqj
      let tj ← dictGet fields "todos"
      let t ← parseStringList tj
      let mrj ← dictGet fields "message_range_summarized"
      let mr ← MessageRange.validate mrj
      pure ⟨up, kf, d, oq, t, mr⟩
  | _ => none

theorem parseStrings_map_str (l : List String) :
    parseStrings (l.map Json.str) = some l := by
  induction l with
  | nil => rfl
  | cons x xs ih =>
      simp only [List.map_cons, parseStrings, ih]
      rfl

theorem parseStringList_map_str (l : List String) :
    parseStringList (Json.arr (l.map Json.str)) = some l := by
  unfold parseStringList
  exact parseStrings_map_str l

theorem validate_model_dump_profile (p : UserProfile) :
    UserProfile.validate p.model_dump = some p := by
  simp [UserProfile.validate, UserProfile.model_dump, dictGet,
    parseStringList_map_str]

theorem validate_model_dump_range (r : MessageRange) :
    MessageRange.validate r.model_dump = some r := by
  simp [MessageRange.validate, MessageRange.model_dump, dictGet]

theorem validate_model_dump_summary (s : SessionSummary) :
    SessionSummary.validate s.model_dump = some s := by
  simp [SessionSummary.validate, SessionSummary.model_dump,
    SessionSummary.model_dump_fields, dictGet, parseStringList_map_str,
    validate_model_dump_profile, validate_model_dump_range]

/-- The `\uXXXX` escape `json.dump` writes for a character when it does
escape it. -/
def uEscape (c : Char) : String :=
  "\\u" ++ String.mk (Nat.toDigits 16 c.toNat)

/-- How `json.dump` writes one character of a string value: the two JSON
metacharacters and control characters are always escaped; a character
above U+007F is `\u`-escaped exactly when `ensure_ascii` is true,
otherwise written verbatim. -/
def jsonEncodeChar (ensure_ascii : Bool) (c : Char) : String :=
  if c = '"' then "\\\""
  else if c = '\\' then "\\\\"
  else if c.toNat < 32 then uEscape c
  else if ensure_ascii && decide (c.toNat > 127) then uEscape c
  else String.singleton c

/-- The `ensure_ascii` argument `save_json` passes to `json.dump`
(src/utils/storage.py line 32: `ensure_ascii=False`). -/
def save_json_ensure_ascii : Bool := false

/-- Claim C7: a `SessionSummary` saved with the persistence utility and
loaded back from the same path yields the same JSON value, validating that
value recovers the summary with every field equal to the original, and —
because `save_json` writes with `ensure_ascii=False` — every non-ASCII
character is written verbatim rather than `\u`-escaped. -/
theorem session_summary_persistence_round_trip :
    (∀ (s : SessionSummary) (fs : Store) (path : String),
        load_json (save_json s.model_dump path fs) path
          = LoadResult.value (some s.model_dump))
      ∧ (∀ s : SessionSummary, SessionSummary.validate s.model_dump = some s)
      ∧ (∀ c : Char, 127 < c.toNat
          → jsonEncodeChar save_json_ensure_ascii c = String.singleton c) := by
  refine ⟨?_, validate_model_dump_summary, ?_⟩
  · intro s fs path
    unfold load_json save_json
    rw [if_pos rfl]
  · intro c hc
    unfold jsonEncodeChar save_json_ensure_ascii
    have h1 : ¬ c = '"' := by
      intro h
      rw [h] at hc
      exact absurd hc (by decide)
    have h2 : ¬ c = '\\' := by
      intro h
      rw [h] at hc
      exact absurd hc (by decide)
    have h3 : ¬ c.toNat < 32 := by omega
    rw [if_neg h1, if_neg h2, if_neg h3]
    simp

/-- Witness for C7: a summary holding a Vietnamese key fact round-trips
exactly, and the diacritic character is written verbatim. -/
theorem session_summary_persistence_round_trip_witness :
    SessionSummary.validate
        (SessionSummary.model_dump
          ⟨⟨["thích Python"], []⟩, ["Tên tôi là Huy"], [], [], [], ⟨0, 5⟩⟩)
      = some ⟨⟨["thích Python"], []⟩, ["Tên tôi là Huy"], [], [], [], ⟨0, 5⟩⟩
      ∧ jsonEncodeChar save_json_ensure_ascii 'ê' = String.singleton 'ê' :=
  ⟨session_summary_persistence_round_trip.2.1
      ⟨⟨["thích Python"], []⟩, ["Tên tôi là Huy"], [], [], [], ⟨0, 5⟩⟩,
   session_summary_persistence_round_trip.2.2 'ê' (by decide)⟩

/-- Python true division `a / b`, which raises `ZeroDivisionError` when the
divisor is zero — modelled as returning no value in that case. -/
def pyTrueDiv (a b : ℚ) : Option ℚ :=
  if b = 0 then none else some (a / b)

/-- Embedding of the sidebar usage fraction of `app/ui.py` line 159:
`pct = min(curr_tokens / threshold, 1.0) if threshold > 0 else 1.0`.
The division is only evaluated under the `threshold > 0` guard. -/
def usage_fraction (curr_tokens : Nat) (threshold : Int) : Option ℚ :=
  if 0 < threshold then
    (pyTrueDiv (curr_tokens : ℚ) (threshold : ℚ)).map (fun r => min r 1)
  else some 1

/-- Claim C8: the usage fraction is exactly 1 when the threshold is 0,
equals `min(used/threshold, 1)` when the threshold is strictly positive,
is always defined (the guarded division never divides by zero), and never
exceeds 1. -/
theorem usage_fraction_clamped (curr_tokens : Nat) (threshold : Int) :
    (threshold = 0 → usage_fraction curr_tokens threshold = some 1)
      ∧ (0 < threshold →
          usage_fraction curr_tokens threshold
            = some (min ((curr_tokens : ℚ) / (threshold : ℚ)) 1))
      ∧ (usage_fraction curr_tokens threshold).isSome = true
      ∧ (∀ q : ℚ, usage_fraction curr_tokens threshold = some q → q ≤ 1) := by
  have hpos : 0 < threshold →
      usage_fraction curr_tokens threshold
        = some (min ((curr_tokens : ℚ) / (threshold : ℚ)) 1) := by
    intro ht
    have hz : (threshold : ℚ) ≠ 0 := by
      exact_mod_cast Int.ne_of_gt ht
    unfold usage_fraction pyTrueDiv
    rw [if_pos ht, if_neg hz]
    rfl
  refine ⟨?_, hpos, ?_, ?_⟩
  · intro h
    subst h
    rfl
  · by_cases ht : 0 < threshold
    · rw [hpos ht]
      rfl
    · unfold usage_fraction
      rw [if_neg ht]
      rfl
  · intro q hq
    by_cases ht : 0 < threshold
    · rw [hpos ht] at hq
      have : q = min ((curr_tokens : ℚ) / (threshold : ℚ)) 1 :=
        (Option.some.injEq _ _ ▸ hq).symm
      rw [this]
      exact min_le_right _ _
    · unfold usage_fraction at hq
      rw [if_neg ht] at hq
      have : q = 1 := (Option.some.injEq _ _ ▸ hq).symm
      rw [this]

/-- Witness for C8: with threshold 100 and 150 tokens used, the displayed
fraction is exactly 1, and with threshold 0 it is exactly 1. -/
theorem usage_fraction_clamped_witness :
    usage_fraction 150 100 = some 1 ∧ usage_fraction 7 0 = some 1 := by
  constructor
  · have h := (usage_fraction_clamped 150 100).2.1 (by decide)
    rw [h]
    norm_num
  · exact (usage_fraction_clamped 7 0).1 rfl
